import Mathlib

/-!
Verification of the spendsphere-ml asynchronous task-processing pipeline.

The development shallowly embeds the pipeline code of
`src/workers/ocr_worker.py`, `src/workers/advice_worker.py` and the enum
injection of `src/services/ocr/ocr.py`:

* JSON values (the untyped dicts the Python code passes around) become the
  inductive type `Json`; Python dict primitives (`d.get`, `{**d, k: v}`,
  truthiness) become `jsonGet`, `pySetKey`, `pyTruthy`.
* `merge_categories`, `load_schema_with_enum` and the category-selection
  logic become pure Lean functions with `Except`/`Option` for the raised
  exceptions.
* Each worker's `process_task` callback becomes a total function from the
  decoded inbound body and the (oracular) backend responses to the
  `final_result` value it builds together with the trace of observable
  events (backend invocations, publish, ack, nack).  Totality of the model
  reflects the `try/except` catch-all: no exception escapes the handler.
-/

namespace SpendSphere

/-- JSON values as produced by Python's `json.loads`: the object constructor
keeps the field list in insertion order, which Python dicts preserve and
`json.dump` serializes in. Numbers are modelled as integers (prices etc. play
no arithmetic role in the pipeline). -/
inductive Json where
  | null : Json
  | bool : Bool → Json
  | num : Int → Json
  | str : String → Json
  | arr : List Json → Json
  | obj : List (String × Json) → Json

/-- A Python dict with JSON values: an insertion-ordered field list.
Dicts built by `json.loads` have pairwise distinct keys. -/
abbrev JObj := List (String × Json)

/-- Python `d.get(k)` / `d[k]`: the value stored under `k`, if any. -/
def jsonGet (fields : JObj) (k : String) : Option Json :=
  match fields with
  | [] => none
  | (k', v) :: rest => if k' = k then some v else jsonGet rest k

/-- Python `{**d, k: v}` (and in-place `d[k] = v`): keys keep their insertion
order, the value under `k` is replaced if the key is present, otherwise the
pair is appended at the end. -/
def pySetKey (fields : JObj) (k : String) (v : Json) : JObj :=
  match fields with
  | [] => [(k, v)]
  | (k', v') :: rest => if k' = k then (k', v) :: rest else (k', v') :: pySetKey rest k v

/-- Python truthiness of a JSON value (`if not x` tests). -/
def pyTruthy : Json → Bool
  | .null => false
  | .bool b => b
  | .num n => n != 0
  | .str s => s != ""
  | .arr xs => !xs.isEmpty
  | .obj fs => !fs.isEmpty

/-! ## Result Merger (`merge_categories`, ocr_worker.py lines 40-58) -/

/-- The exceptions `merge_categories` can raise: the explicit `ValueError`
on a length mismatch, and the `TypeError` Python raises when an element of
an `items` sequence is not a mapping (`{**ocr_item, ...}` / `cat_item.get`). -/
inductive MergeError where
  | cardinalityMismatch : MergeError
  | itemTypeError : MergeError

/-- The `str(e)` message carried by each merge exception. -/
def mergeErrorMsg : MergeError → String
  | .cardinalityMismatch => "Количество items в OCR и категоризации не совпадает"
  | .itemTypeError => "item is not a mapping"

/-- Python `result.get("items", [])`: a missing key defaults to the empty list.
A present non-sequence value is outside the dict contract of the callers
(both results are parsed from schema-constrained JSON objects); it is read
as its Python `len`-compatible element sequence only in the list case. -/
def itemsOf (result : JObj) : List Json :=
  match jsonGet result "items" with
  | some (Json.arr xs) => xs
  | some _ => []
  | none => []

/-- One iteration of the merge loop:
`{**ocr_item, "Category": cat_item.get("Category", "Unknown")}`.
`none` models the `TypeError`/`AttributeError` raised when either item is
not a mapping. -/
def mergeItem (ocr_item cat_item : Json) : Option Json :=
  match ocr_item, cat_item with
  | Json.obj ofields, Json.obj cfields =>
      some (Json.obj (pySetKey ofields "Category"
        ((jsonGet cfields "Category").getD (Json.str "Unknown"))))
  | _, _ => none

/-- The merge loop over `zip(ocr_items, cat_items)` (zip truncates at the
shorter list; the caller has already checked the lengths are equal).
Fails at the first non-mapping item, as the Python loop does. -/
def mergeItems : List Json → List Json → Option (List Json)
  | [], _ => some []
  | _ :: _, [] => some []
  | o :: os, c :: cs =>
      match mergeItem o c, mergeItems os cs with
      | some m, some ms => some (m :: ms)
      | _, _ => none

/-- Models `merge_categories(ocr_result, category_result)` of ocr_worker.py:
length check first, then the positional merge, then `{"items": merged_items}`. -/
def merge_categories (ocr_result category_result : JObj) : Except MergeError JObj :=
  let ocr_items := itemsOf ocr_result
  let cat_items := itemsOf category_result
  if ocr_items.length ≠ cat_items.length then
    Except.error MergeError.cardinalityMismatch
  else
    match mergeItems ocr_items cat_items with
    | some merged => Except.ok [("items", Json.arr merged)]
    | none => Except.error MergeError.itemTypeError

/-- The per-item merge record of the loop body, on mapping items. -/
def mergedFields (ofields cfields : JObj) : JObj :=
  pySetKey ofields "Category" ((jsonGet cfields "Category").getD (Json.str "Unknown"))

/-! ## Category selection (ocr_worker.py lines 91-95) -/

/-- The fixed fallback category list of `process_task`. -/
def defaultCategories : List String :=
  ["Groceries", "Dining", "Transport", "Entertainment", "Other", "Unknown"]

/-- Python `isinstance(raw, list) and all(isinstance(c, str) for c in raw)`:
`some` with the strings when the value is a list whose elements are all
strings (an empty list qualifies), `none` otherwise. -/
def asStringList : Json → Option (List String)
  | Json.arr xs => xs.mapM (fun j => match j with | Json.str s => some s | _ => none)
  | _ => none

/-- The category list the worker uses: `task.get("categories")` is kept when
it is a list of strings, anything else (including a missing key) falls back
to `defaultCategories`. -/
def categoriesOf (raw : Option Json) : List String :=
  match raw with
  | some j => (asStringList j).getD defaultCategories
  | none => defaultCategories

/-! ## Category Schema Builder (`load_schema_with_enum`, ocr_worker.py
lines 29-37).  The builder parses the template file and executes
`schema["properties"]["items"]["items"]["properties"]["Category"]["enum"]
  = categories`.
We model the parsed template as the input and the chained subscripts /
assignment as a path update; `none` models the `KeyError`/`TypeError`
raised when the template lacks the expected shape.  `json.loads` builds a
tree (no aliasing), so the in-place mutation is the pure update below. -/

/-- Follow a chain of subscripts `j[p₁][p₂]…` through JSON objects. -/
def getPath (j : Json) : List String → Option Json
  | [] => some j
  | p :: ps =>
      match j with
      | Json.obj fields =>
          match jsonGet fields p with
          | some child => getPath child ps
          | none => none
      | _ => none

/-- Python `j[p₁][p₂]…[pₙ][k] = v`: descend along `path` through objects and set
key `k` at the end, failing (`none`) where Python would raise. -/
def setPath (j : Json) (path : List String) (k : String) (v : Json) : Option Json :=
  match path, j with
  | [], Json.obj fields => some (Json.obj (pySetKey fields k v))
  | [], _ => none
  | p :: ps, Json.obj fields =>
      match jsonGet fields p with
      | some child => (setPath child ps k v).map (fun c => Json.obj (pySetKey fields p c))
      | none => none
  | _ :: _, _ => none

/-- The subscript chain of `load_schema_with_enum` down to the Category
field object. -/
def enumPath : List String := ["properties", "items", "items", "properties", "Category"]

/-- Models `load_schema_with_enum` applied to the parsed template `schema`:
replace the Category enum by `categories` and return the schema. -/
def load_schema_with_enum (schema : Json) (categories : List String) : Option Json :=
  setPath schema enumPath "enum" (Json.arr (categories.map Json.str))

/-- Tests whether `path₁` is an initial segment of `path₂` (pointwise equal up to
`path₁`'s length): the subtree at `path₂` lies inside the subtree at
`path₁`. -/
def pathLe : List String → List String → Bool
  | [], _ => true
  | _ :: _, [] => false
  | a :: as, b :: bs => a == b && pathLe as bs

/-- A JSON serializer in the style of `json.dump(..., ensure_ascii=False)`:
a fixed deterministic function of the value (escaping details do not matter
for the determinism statement). -/
def serializeStr (s : String) : String := "\"" ++ s ++ "\""

mutual

def serializeJson : Json → String
  | .null => "null"
  | .bool true => "true"
  | .bool false => "false"
  | .num n => toString n
  | .str s => serializeStr s
  | .arr xs => "[" ++ serializeArr xs ++ "]"
  | .obj fs => "\x7b" ++ serializeObj fs ++ "\x7d"

def serializeArr : List Json → String
  | [] => ""
  | [x] => serializeJson x
  | x :: y :: xs => serializeJson x ++ ", " ++ serializeArr (y :: xs)

def serializeObj : List (String × Json) → String
  | [] => ""
  | [(k, x)] => serializeStr k ++ ": " ++ serializeJson x
  | (k, x) :: y :: fs => serializeStr k ++ ": " ++ serializeJson x ++ ", " ++ serializeObj (y :: fs)

end

/-! ## The worker callbacks -/

/-- The observable actions of one `process_task` call, in program order:
the backend invocations (`extract_text_from_base64_image`,
`categorize_items` with the category list it is handed, `generate_advice`)
and the channel operations (`basic_publish` with queue, body and
`delivery_mode`, `basic_ack`, `basic_nack`). -/
inductive Event where
  | callExtract : Event
  | callCategorize : List String → Event
  | callAdvice : Event
  | publish : String → Json → Nat → Event
  | ack : Event
  | nack : Event

def isPublish : Event → Bool
  | .publish _ _ _ => true
  | _ => false

def isAck : Event → Bool
  | .ack => true
  | _ => false

def isNack : Event → Bool
  | .nack => true
  | _ => false

def isCallAdvice : Event → Bool
  | .callAdvice => true
  | _ => false

/-- The category list handed to the first `categorize_items` invocation of
a trace, if one happened. -/
def usedCategories : List Event → Option (List String)
  | [] => none
  | .callCategorize cs :: _ => some cs
  | _ :: evs => usedCategories evs

/-- The publish event (if any) precedes the ack event (if any); `false`
when either is absent. -/
def publishPrecedesAck (evs : List Event) : Bool :=
  match evs.findIdx? isPublish, evs.findIdx? isAck with
  | some i, some j => decide (i < j)
  | _, _ => false

/-- The FAILED `final_result` dict both workers build in their `except`
branch, with the raised exception's `str(e)`. -/
def failResult (task_id : Json) (err : String) : Json :=
  Json.obj [("task_id", task_id), ("status", Json.str "FAILED"), ("error", Json.str err)]

/-- Python `result["status"]` of an outcome dict. -/
def statusOf (res : Json) : Option Json :=
  match res with
  | Json.obj fields => jsonGet fields "status"
  | _ => none

/-- Python `result["error"]` of an outcome dict. -/
def errorOf (res : Json) : Option Json :=
  match res with
  | Json.obj fields => jsonGet fields "error"
  | _ => none

/-- Python `len(result["data"]["items"])` of an outcome dict, when that chain of
subscripts yields a sequence. -/
def dataItemsLen (res : Json) : Option Nat :=
  match res with
  | Json.obj fields =>
      match jsonGet fields "data" with
      | some (Json.obj dfields) =>
          match jsonGet dfields "items" with
          | some (Json.arr xs) => some xs.length
          | _ => none
      | _ => none
  | _ => none

/-- Placeholder `str(e)` of the `AttributeError` raised by `task.get(...)`
when `json.loads` returned a non-dict body. -/
def attributeErrorMsg : String := "object has no attribute get"

def OCR_RESULTS_QUEUE : String := "ocr_results"

def ADVICE_RESULTS_QUEUE : String := "advice_results"

/-- Models `merge_categories` as called from `process_task` on the raw backend
outputs: `.get` on a non-dict raises. -/
def merge_categoriesJ (ocr_result category_result : Json) : Except MergeError JObj :=
  match ocr_result, category_result with
  | Json.obj ofields, Json.obj cfields => merge_categories ofields cfields
  | _, _ => Except.error MergeError.itemTypeError

/-- The SUCCESS `final_result` dict of the OCR worker. -/
def ocrSuccessResult (task_id : Json) (final_items : JObj) : Json :=
  Json.obj [("task_id", task_id), ("status", Json.str "SUCCESS"), ("data", Json.obj final_items)]

/-- The `process_task` callback of `start_ocr_worker` (ocr_worker.py lines
82-162) as a function of the decoded body (`json.loads(body.decode())`,
`Except.error` modelling a decode failure) and of the two backend call
results (`Except.error e` models any exception raised inside the call with
message `e`).  Returns the `final_result` dict the callback builds and the
trace of its observable events. -/
def ocr_process_task (decoded : Except String Json)
    (extractR categorizeR : Except String Json) : Json × List Event :=
  match decoded with
  | Except.error e => (failResult (Json.str "N/A") e, [Event.nack])
  | Except.ok (Json.obj tfields) =>
      if pyTruthy ((jsonGet tfields "image_b64").getD Json.null) = false then
        (failResult ((jsonGet tfields "task_id").getD (Json.str "N/A"))
           "Отсутствует поле image_b64", [Event.nack])
      else
        match extractR with
        | Except.error e =>
            (failResult ((jsonGet tfields "task_id").getD (Json.str "N/A")) e,
             [Event.callExtract, Event.nack])
        | Except.ok ocr_result =>
            match categorizeR with
            | Except.error e =>
                (failResult ((jsonGet tfields "task_id").getD (Json.str "N/A")) e,
                 [Event.callExtract,
                  Event.callCategorize (categoriesOf (jsonGet tfields "categories")),
                  Event.nack])
            | Except.ok category_result =>
                match merge_categoriesJ ocr_result category_result with
                | Except.error me =>
                    (failResult ((jsonGet tfields "task_id").getD (Json.str "N/A"))
                       (mergeErrorMsg me),
                     [Event.callExtract,
                      Event.callCategorize (categoriesOf (jsonGet tfields "categories")),
                      Event.nack])
                | Except.ok final_items =>
                    (ocrSuccessResult ((jsonGet tfields "task_id").getD (Json.str "N/A")) final_items,
                     [Event.callExtract,
                      Event.callCategorize (categoriesOf (jsonGet tfields "categories")),
                      Event.publish OCR_RESULTS_QUEUE
                        (ocrSuccessResult ((jsonGet tfields "task_id").getD (Json.str "N/A")) final_items) 2,
                      Event.ack])
  | Except.ok _ => (failResult (Json.str "N/A") attributeErrorMsg, [Event.nack])

/-- Python `advice_result["advice"]`: subscripting raises on a non-dict or a
missing key. -/
def adviceField (advice_result : Json) : Option Json :=
  match advice_result with
  | Json.obj fields => jsonGet fields "advice"
  | _ => none

/-- The SUCCESS `final_result` dict of the advice worker. -/
def adviceSuccessResult (task_id goal adv : Json) : Json :=
  Json.obj [("task_id", task_id), ("status", Json.str "SUCCESS"), ("goal", goal), ("advice", adv)]

/-- The `process_task` callback of `start_advice_worker` (advice_worker.py
lines 45-98), same conventions as `ocr_process_task`; `adviceR` is the
result of the `generate_advice` call. -/
def advice_process_task (decoded : Except String Json)
    (adviceR : Except String Json) : Json × List Event :=
  match decoded with
  | Except.error e => (failResult (Json.str "N/A") e, [Event.nack])
  | Except.ok (Json.obj tfields) =>
      if pyTruthy ((jsonGet tfields "goal").getD Json.null) = false
          ∨ pyTruthy ((jsonGet tfields "monthly_stats").getD Json.null) = false then
        (failResult ((jsonGet tfields "task_id").getD (Json.str "N/A"))
           "Отсутствует goal или monthly_stats", [Event.nack])
      else
        match adviceR with
        | Except.error e =>
            (failResult ((jsonGet tfields "task_id").getD (Json.str "N/A")) e,
             [Event.callAdvice, Event.nack])
        | Except.ok advice_result =>
            match adviceField advice_result with
            | none =>
                (failResult ((jsonGet tfields "task_id").getD (Json.str "N/A"))
                   "KeyError: advice", [Event.callAdvice, Event.nack])
            | some adv =>
                (adviceSuccessResult ((jsonGet tfields "task_id").getD (Json.str "N/A"))
                   ((jsonGet tfields "goal").getD Json.null) adv,
                 [Event.callAdvice,
                  Event.publish ADVICE_RESULTS_QUEUE
                    (adviceSuccessResult ((jsonGet tfields "task_id").getD (Json.str "N/A"))
                      ((jsonGet tfields "goal").getD Json.null) adv) 2,
                  Event.ack])
  | Except.ok _ => (failResult (Json.str "N/A") attributeErrorMsg, [Event.nack])

/-- A small concrete categorization-schema template of the same shape as
`categorize_schema.json`, used to instantiate theorems at a concrete input. -/
def sampleTemplate : Json := Json.obj
  [("type", Json.str "object"),
   ("properties", Json.obj
     [("items", Json.obj
       [("type", Json.str "array"),
        ("items", Json.obj
          [("type", Json.str "object"),
           ("properties", Json.obj
             [("Category", Json.obj
               [("type", Json.str "string"),
                ("enum", Json.arr [Json.str "old"])])])])])])]

/-- A concrete inbound task whose `categories` field is present and is the
empty list (a list of strings, but not a non-empty one). -/
def emptyCatsTask : Json := Json.obj
  [("task_id", Json.str "T-empty"), ("image_b64", Json.str "aW1n"),
   ("categories", Json.arr [])]

/-! ## Helper lemmas about the dict primitives -/

theorem jsonGet_pySetKey_self (fs : JObj) (k : String) (v : Json) :
    jsonGet (pySetKey fs k v) k = some v := by
  induction fs with
  | nil => simp [pySetKey, jsonGet]
  | cons p rest ih =>
      obtain ⟨k', v'⟩ := p
      by_cases h : k' = k
      · simp [pySetKey, jsonGet, h]
      · simp [pySetKey, jsonGet, h, ih]

theorem jsonGet_pySetKey_ne (fs : JObj) (k k' : String) (v : Json) (h : k' ≠ k) :
    jsonGet (pySetKey fs k v) k' = jsonGet fs k' := by
  induction fs with
  | nil =>
      simp [pySetKey, jsonGet]
      intro hkk
      exact absurd hkk.symm h
  | cons p rest ih =>
      obtain ⟨k₀, v₀⟩ := p
      by_cases hk : k₀ = k
      · subst hk
        have : ¬ k₀ = k' := fun hh => h (hh.symm)
        simp [pySetKey, jsonGet, this]
      · by_cases hk' : k₀ = k'
        · simp [pySetKey, jsonGet, hk, hk', h]
        · simp [pySetKey, jsonGet, hk, hk', ih]

theorem mergeItems_objs (os cs : List JObj) :
    mergeItems (os.map Json.obj) (cs.map Json.obj)
      = some (List.zipWith (fun o c => Json.obj (mergedFields o c)) os cs) := by
  induction os generalizing cs with
  | nil => simp [mergeItems]
  | cons o os ih =>
      cases cs with
      | nil => simp [mergeItems]
      | cons c cs => simp [mergeItems, mergeItem, mergedFields, ih]

theorem itemsOf_eq (r : JObj) (xs : List Json) (h : jsonGet r "items" = some (Json.arr xs)) :
    itemsOf r = xs := by
  simp [itemsOf, h]

theorem zipWith_getD (f : JObj → JObj → JObj) (os cs : List JObj) (i : Nat)
    (hi : i < (List.zipWith f os cs).length) :
    (List.zipWith f os cs).getD i [] = f (os.getD i []) (cs.getD i []) := by
  induction os generalizing cs i with
  | nil => simp at hi
  | cons o os ih =>
      cases cs with
      | nil => simp at hi
      | cons c cs =>
          cases i with
          | zero => simp
          | succ i =>
              simp only [List.zipWith_cons_cons, List.length_cons] at hi
              simpa using ih cs i (by omega)

theorem merge_categories_objs (ocr_result category_result : JObj)
    (oitems citems : List JObj)
    (ho : jsonGet ocr_result "items" = some (Json.arr (oitems.map Json.obj)))
    (hc : jsonGet category_result "items" = some (Json.arr (citems.map Json.obj)))
    (hlen : oitems.length = citems.length) :
    merge_categories ocr_result category_result
      = Except.ok [("items",
          Json.arr ((List.zipWith mergedFields oitems citems).map Json.obj))] := by
  unfold merge_categories
  rw [itemsOf_eq _ _ ho, itemsOf_eq _ _ hc]
  simp only [List.length_map, hlen, ne_eq, not_true_eq_false, if_false]
  rw [mergeItems_objs]
  rw [List.map_zipWith Json.obj mergedFields oitems citems]

/-! ## Claim theorems about the Result Merger -/

/-- C1: for equal-length item sequences, `merge_categories` succeeds with a
merged sequence of the same length whose `i`-th record takes `Category` from
the `i`-th categorization item (defaulting to `"Unknown"` when that key is
absent) and every other field from the `i`-th extraction item; the order is
positional and no item is added or dropped. -/
theorem merge_positional (ocr_result category_result : JObj)
    (oitems citems : List JObj)
    (ho : jsonGet ocr_result "items" = some (Json.arr (oitems.map Json.obj)))
    (hc : jsonGet category_result "items" = some (Json.arr (citems.map Json.obj)))
    (hlen : oitems.length = citems.length) :
    ∃ merged : List JObj,
      merge_categories ocr_result category_result
        = Except.ok [("items", Json.arr (merged.map Json.obj))] ∧
      merged.length = oitems.length ∧
      ∀ i, i < merged.length →
        jsonGet (merged.getD i []) "Category"
            = some ((jsonGet (citems.getD i []) "Category").getD (Json.str "Unknown")) ∧
        ∀ k, k ≠ "Category" →
          jsonGet (merged.getD i []) k = jsonGet (oitems.getD i []) k := by
  refine ⟨List.zipWith mergedFields oitems citems,
    merge_categories_objs _ _ _ _ ho hc hlen, ?_, ?_⟩
  · simp [List.length_zipWith, hlen]
  · intro i hi
    rw [zipWith_getD mergedFields oitems citems i hi]
    unfold mergedFields
    exact ⟨jsonGet_pySetKey_self _ _ _, fun k hk => jsonGet_pySetKey_ne _ _ _ _ hk⟩

/-- C1 witness: a concrete two-item merge. -/
theorem merge_positional_witness :
    ∃ merged : List JObj,
      merge_categories
          [("items", Json.arr ([[("name", Json.str "milk")], [("name", Json.str "bus")]].map Json.obj))]
          [("items", Json.arr ([[("Category", Json.str "Groceries")], ([] : JObj)].map Json.obj))]
        = Except.ok [("items", Json.arr (merged.map Json.obj))] ∧
      merged.length = 2 ∧
      ∀ i, i < merged.length →
        jsonGet (merged.getD i []) "Category"
            = some ((jsonGet ([[("Category", Json.str "Groceries")], ([] : JObj)].getD i []) "Category").getD
                (Json.str "Unknown")) ∧
        ∀ k, k ≠ "Category" →
          jsonGet (merged.getD i []) k
            = jsonGet ([[("name", Json.str "milk")], [("name", Json.str "bus")]].getD i []) k :=
  merge_positional _ _ [[("name", Json.str "milk")], [("name", Json.str "bus")]]
    [[("Category", Json.str "Groceries")], ([] : JObj)] rfl rfl rfl

/-- C9: the merged record's `Category` always comes from the categorization
item (or the `"Unknown"` default): even when the extraction item carries its
own `Category` value, that value is overwritten, while every other key of
the extraction item is carried through unchanged. -/
theorem merge_overwrites_extraction_category (oitems citems : List JObj)
    (hlen : oitems.length = citems.length) (i : Nat) (hi : i < oitems.length)
    (v : Json) (_hv : jsonGet (oitems.getD i []) "Category" = some v) :
    ∃ merged : List JObj,
      merge_categories [("items", Json.arr (oitems.map Json.obj))]
          [("items", Json.arr (citems.map Json.obj))]
        = Except.ok [("items", Json.arr (merged.map Json.obj))] ∧
      jsonGet (merged.getD i []) "Category"
          = some ((jsonGet (citems.getD i []) "Category").getD (Json.str "Unknown")) ∧
      ∀ k, k ≠ "Category" →
        jsonGet (merged.getD i []) k = jsonGet (oitems.getD i []) k := by
  refine ⟨List.zipWith mergedFields oitems citems,
    merge_categories_objs _ _ _ _ rfl rfl hlen, ?_⟩
  have hi' : i < (List.zipWith mergedFields oitems citems).length := by
    simp [List.length_zipWith, hlen] at *
    omega
  rw [zipWith_getD mergedFields oitems citems i hi']
  unfold mergedFields
  exact ⟨jsonGet_pySetKey_self _ _ _, fun k hk => jsonGet_pySetKey_ne _ _ _ _ hk⟩

/-- C9 witness: an extraction item whose own `Category` value `"Old"` is
replaced by the categorization value. -/
theorem merge_overwrites_extraction_category_witness :
    ∃ merged : List JObj,
      merge_categories [("items", Json.arr ([[("Category", Json.str "Old"), ("name", Json.str "milk")]].map Json.obj))]
          [("items", Json.arr ([[("Category", Json.str "Groceries")]].map Json.obj))]
        = Except.ok [("items", Json.arr (merged.map Json.obj))] ∧
      jsonGet (merged.getD 0 []) "Category"
          = some ((jsonGet ([[("Category", Json.str "Groceries")]].getD 0 []) "Category").getD
              (Json.str "Unknown")) ∧
      ∀ k, k ≠ "Category" →
        jsonGet (merged.getD 0 []) k
          = jsonGet ([[("Category", Json.str "Old"), ("name", Json.str "milk")]].getD 0 []) k :=
  merge_overwrites_extraction_category
    [[("Category", Json.str "Old"), ("name", Json.str "milk")]]
    [[("Category", Json.str "Groceries")]] rfl 0 (by decide) (Json.str "Old") rfl

/-- C10: a missing `items` key is read as the empty sequence: with the key
missing on both sides the merge succeeds with an empty merged sequence;
with the key missing on exactly one side and a non-empty sequence on the
other, the merge fails with the cardinality-mismatch error. -/
theorem merge_missing_items_defaults (ocr_result category_result : JObj) :
    (jsonGet ocr_result "items" = none → jsonGet category_result "items" = none →
        merge_categories ocr_result category_result
          = Except.ok [("items", Json.arr [])]) ∧
    (∀ xs, jsonGet ocr_result "items" = none →
        jsonGet category_result "items" = some (Json.arr xs) → xs ≠ [] →
        merge_categories ocr_result category_result
          = Except.error MergeError.cardinalityMismatch) ∧
    (∀ xs, jsonGet category_result "items" = none →
        jsonGet ocr_result "items" = some (Json.arr xs) → xs ≠ [] →
        merge_categories ocr_result category_result
          = Except.error MergeError.cardinalityMismatch) := by
  refine ⟨?_, ?_, ?_⟩
  · intro ho hc
    unfold merge_categories itemsOf
    rw [ho, hc]
    simp [mergeItems]
  · intro xs ho hc hne
    have hx : 0 ≠ xs.length := fun h0 => hne (List.length_eq_zero.mp h0.symm)
    unfold merge_categories itemsOf
    rw [ho, hc]
    simp [hx]
  · intro xs hc ho hne
    have hx : xs.length ≠ 0 := fun h0 => hne (List.length_eq_zero.mp h0)
    unfold merge_categories itemsOf
    rw [ho, hc]
    simp [hx]

/-- C10 witness: concrete instances of all three cases. -/
theorem merge_missing_items_defaults_witness :
    merge_categories [("x", Json.num 1)] [] = Except.ok [("items", Json.arr [])] ∧
    merge_categories [] [("items", Json.arr [Json.obj []])]
      = Except.error MergeError.cardinalityMismatch ∧
    merge_categories [("items", Json.arr [Json.obj []])] []
      = Except.error MergeError.cardinalityMismatch :=
  ⟨(merge_missing_items_defaults [("x", Json.num 1)] []).1 rfl rfl,
   (merge_missing_items_defaults [] [("items", Json.arr [Json.obj []])]).2.1
     [Json.obj []] rfl rfl (by simp),
   (merge_missing_items_defaults [("items", Json.arr [Json.obj []])] []).2.2
     [Json.obj []] rfl rfl (by simp)⟩

/-! ## Claim theorems about the worker callbacks -/

/-- C2: when the two backend results' item counts differ, the merge raises
the cardinality-mismatch error, the task's outcome is FAILED, the inbound
message is negatively-acknowledged and nothing is published. -/
theorem cardinality_mismatch_failed (tfields o c : JObj) (oxs cxs : List Json)
    (himg : pyTruthy ((jsonGet tfields "image_b64").getD Json.null) = true)
    (ho : jsonGet o "items" = some (Json.arr oxs))
    (hc : jsonGet c "items" = some (Json.arr cxs))
    (hlen : oxs.length ≠ cxs.length) :
    merge_categories o c = Except.error MergeError.cardinalityMismatch ∧
    statusOf (ocr_process_task (Except.ok (Json.obj tfields))
        (Except.ok (Json.obj o)) (Except.ok (Json.obj c))).1 = some (Json.str "FAILED") ∧
    (ocr_process_task (Except.ok (Json.obj tfields))
        (Except.ok (Json.obj o)) (Except.ok (Json.obj c))).2.any isPublish = false ∧
    (ocr_process_task (Except.ok (Json.obj tfields))
        (Except.ok (Json.obj o)) (Except.ok (Json.obj c))).2.any isNack = true := by
  have hmerge : merge_categories o c = Except.error MergeError.cardinalityMismatch := by
    unfold merge_categories
    rw [itemsOf_eq _ _ ho, itemsOf_eq _ _ hc]
    simp [hlen]
  have hrun : ocr_process_task (Except.ok (Json.obj tfields))
      (Except.ok (Json.obj o)) (Except.ok (Json.obj c))
      = (failResult ((jsonGet tfields "task_id").getD (Json.str "N/A"))
           (mergeErrorMsg MergeError.cardinalityMismatch),
         [Event.callExtract,
          Event.callCategorize (categoriesOf (jsonGet tfields "categories")),
          Event.nack]) := by
    simp [ocr_process_task, merge_categoriesJ, himg, hmerge]
  rw [hrun]
  exact ⟨hmerge, rfl, rfl, rfl⟩

/-- C2 witness: one extraction item against zero categorization items. -/
theorem cardinality_mismatch_failed_witness :
    merge_categories [("items", Json.arr [Json.obj []])] [("items", Json.arr [])]
      = Except.error MergeError.cardinalityMismatch ∧
    statusOf (ocr_process_task (Except.ok (Json.obj [("image_b64", Json.str "aW1n")]))
        (Except.ok (Json.obj [("items", Json.arr [Json.obj []])]))
        (Except.ok (Json.obj [("items", Json.arr [])]))).1 = some (Json.str "FAILED") ∧
    (ocr_process_task (Except.ok (Json.obj [("image_b64", Json.str "aW1n")]))
        (Except.ok (Json.obj [("items", Json.arr [Json.obj []])]))
        (Except.ok (Json.obj [("items", Json.arr [])]))).2.any isPublish = false ∧
    (ocr_process_task (Except.ok (Json.obj [("image_b64", Json.str "aW1n")]))
        (Except.ok (Json.obj [("items", Json.arr [Json.obj []])]))
        (Except.ok (Json.obj [("items", Json.arr [])]))).2.any isNack = true :=
  cardinality_mismatch_failed [("image_b64", Json.str "aW1n")]
    [("items", Json.arr [Json.obj []])] [("items", Json.arr [])]
    [Json.obj []] [] rfl rfl rfl (by simp)

/-- C3: whenever either worker's callback classifies a task as FAILED (any
decode or processing failure), the outcome is the FAILED record carrying the
failure's string description, nothing is published, the inbound message is
not acknowledged but negatively-acknowledged; totality of the model is the
no-crash guarantee of the `except` catch-all. -/
theorem failure_path_shape (decoded extractR categorizeR adviceR : Except String Json) :
    (statusOf (ocr_process_task decoded extractR categorizeR).1 = some (Json.str "FAILED") →
        (∃ tid msg, (ocr_process_task decoded extractR categorizeR).1 = failResult tid msg) ∧
        (ocr_process_task decoded extractR categorizeR).2.any isPublish = false ∧
        (ocr_process_task decoded extractR categorizeR).2.any isAck = false ∧
        (ocr_process_task decoded extractR categorizeR).2.any isNack = true) ∧
    (statusOf (advice_process_task decoded adviceR).1 = some (Json.str "FAILED") →
        (∃ tid msg, (advice_process_task decoded adviceR).1 = failResult tid msg) ∧
        (advice_process_task decoded adviceR).2.any isPublish = false ∧
        (advice_process_task decoded adviceR).2.any isAck = false ∧
        (advice_process_task decoded adviceR).2.any isNack = true) := by
  constructor
  · unfold ocr_process_task
    repeat' split
    all_goals intro h
    all_goals first
      | exact ⟨⟨_, _, rfl⟩, rfl, rfl, rfl⟩
      | simp [statusOf, jsonGet, ocrSuccessResult] at h
  · unfold advice_process_task
    repeat' split
    all_goals intro h
    all_goals first
      | exact ⟨⟨_, _, rfl⟩, rfl, rfl, rfl⟩
      | simp [statusOf, jsonGet, adviceSuccessResult] at h

/-- C3 witness: a body that fails JSON decoding, on both workers. -/
theorem failure_path_shape_witness :
    ((∃ tid msg, (ocr_process_task (Except.error "Expecting value")
          (Except.ok Json.null) (Except.ok Json.null)).1 = failResult tid msg) ∧
      (ocr_process_task (Except.error "Expecting value")
          (Except.ok Json.null) (Except.ok Json.null)).2.any isPublish = false ∧
      (ocr_process_task (Except.error "Expecting value")
          (Except.ok Json.null) (Except.ok Json.null)).2.any isAck = false ∧
      (ocr_process_task (Except.error "Expecting value")
          (Except.ok Json.null) (Except.ok Json.null)).2.any isNack = true) ∧
    ((∃ tid msg, (advice_process_task (Except.error "Expecting value")
          (Except.ok Json.null)).1 = failResult tid msg) ∧
      (advice_process_task (Except.error "Expecting value")
          (Except.ok Json.null)).2.any isPublish = false ∧
      (advice_process_task (Except.error "Expecting value")
          (Except.ok Json.null)).2.any isAck = false ∧
      (advice_process_task (Except.error "Expecting value")
          (Except.ok Json.null)).2.any isNack = true) :=
  ⟨(failure_path_shape (Except.error "Expecting value")
      (Except.ok Json.null) (Except.ok Json.null) (Except.ok Json.null)).1 rfl,
   (failure_path_shape (Except.error "Expecting value")
      (Except.ok Json.null) (Except.ok Json.null) (Except.ok Json.null)).2 rfl⟩

/-- C4: for a valid task with well-formed, length-aligned backend responses,
exactly one result message is published, on the outbound results queue, with
status SUCCESS, `delivery_mode = 2` (persistent) and `data.items` length
equal to the extraction item count, and the publish precedes the ack. -/
theorem success_publishes_once (tfields o c : JObj) (oitems citems : List JObj)
    (himg : pyTruthy ((jsonGet tfields "image_b64").getD Json.null) = true)
    (ho : jsonGet o "items" = some (Json.arr (oitems.map Json.obj)))
    (hc : jsonGet c "items" = some (Json.arr (citems.map Json.obj)))
    (hlen : oitems.length = citems.length) :
    statusOf (ocr_process_task (Except.ok (Json.obj tfields))
        (Except.ok (Json.obj o)) (Except.ok (Json.obj c))).1 = some (Json.str "SUCCESS") ∧
    (ocr_process_task (Except.ok (Json.obj tfields))
        (Except.ok (Json.obj o)) (Except.ok (Json.obj c))).2.filter isPublish
      = [Event.publish OCR_RESULTS_QUEUE
          (ocr_process_task (Except.ok (Json.obj tfields))
            (Except.ok (Json.obj o)) (Except.ok (Json.obj c))).1 2] ∧
    publishPrecedesAck (ocr_process_task (Except.ok (Json.obj tfields))
        (Except.ok (Json.obj o)) (Except.ok (Json.obj c))).2 = true ∧
    dataItemsLen (ocr_process_task (Except.ok (Json.obj tfields))
        (Except.ok (Json.obj o)) (Except.ok (Json.obj c))).1 = some oitems.length := by
  have hmerge := merge_categories_objs o c oitems citems ho hc hlen
  have hrun : ocr_process_task (Except.ok (Json.obj tfields))
      (Except.ok (Json.obj o)) (Except.ok (Json.obj c))
      = (ocrSuccessResult ((jsonGet tfields "task_id").getD (Json.str "N/A"))
           [("items", Json.arr ((List.zipWith mergedFields oitems citems).map Json.obj))],
         [Event.callExtract,
          Event.callCategorize (categoriesOf (jsonGet tfields "categories")),
          Event.publish OCR_RESULTS_QUEUE
            (ocrSuccessResult ((jsonGet tfields "task_id").getD (Json.str "N/A"))
              [("items", Json.arr ((List.zipWith mergedFields oitems citems).map Json.obj))]) 2,
          Event.ack]) := by
    simp [ocr_process_task, merge_categoriesJ, himg, hmerge]
  rw [hrun]
  refine ⟨rfl, rfl, rfl, ?_⟩
  have hlen2 : ((List.zipWith mergedFields oitems citems).map Json.obj).length
      = oitems.length := by
    simp [List.length_zipWith, hlen]
  calc dataItemsLen (ocrSuccessResult ((jsonGet tfields "task_id").getD (Json.str "N/A"))
          [("items", Json.arr ((List.zipWith mergedFields oitems citems).map Json.obj))])
      = some ((List.zipWith mergedFields oitems citems).map Json.obj).length := rfl
    _ = some oitems.length := by rw [hlen2]

/-- C4 witness: a concrete one-item success run. -/
theorem success_publishes_once_witness :
    statusOf (ocr_process_task (Except.ok (Json.obj [("image_b64", Json.str "aW1n")]))
        (Except.ok (Json.obj [("items", Json.arr ([[("name", Json.str "milk")]].map Json.obj))]))
        (Except.ok (Json.obj [("items", Json.arr ([[("Category", Json.str "Groceries")]].map Json.obj))]))).1
      = some (Json.str "SUCCESS") ∧
    (ocr_process_task (Except.ok (Json.obj [("image_b64", Json.str "aW1n")]))
        (Except.ok (Json.obj [("items", Json.arr ([[("name", Json.str "milk")]].map Json.obj))]))
        (Except.ok (Json.obj [("items", Json.arr ([[("Category", Json.str "Groceries")]].map Json.obj))]))).2.filter isPublish
      = [Event.publish OCR_RESULTS_QUEUE
          (ocr_process_task (Except.ok (Json.obj [("image_b64", Json.str "aW1n")]))
            (Except.ok (Json.obj [("items", Json.arr ([[("name", Json.str "milk")]].map Json.obj))]))
            (Except.ok (Json.obj [("items", Json.arr ([[("Category", Json.str "Groceries")]].map Json.obj))]))).1 2] ∧
    publishPrecedesAck (ocr_process_task (Except.ok (Json.obj [("image_b64", Json.str "aW1n")]))
        (Except.ok (Json.obj [("items", Json.arr ([[("name", Json.str "milk")]].map Json.obj))]))
        (Except.ok (Json.obj [("items", Json.arr ([[("Category", Json.str "Groceries")]].map Json.obj))]))).2 = true ∧
    dataItemsLen (ocr_process_task (Except.ok (Json.obj [("image_b64", Json.str "aW1n")]))
        (Except.ok (Json.obj [("items", Json.arr ([[("name", Json.str "milk")]].map Json.obj))]))
        (Except.ok (Json.obj [("items", Json.arr ([[("Category", Json.str "Groceries")]].map Json.obj))]))).1
      = some ([[("name", Json.str "milk")]] : List JObj).length :=
  success_publishes_once [("image_b64", Json.str "aW1n")]
    [("items", Json.arr ([[("name", Json.str "milk")]].map Json.obj))]
    [("items", Json.arr ([[("Category", Json.str "Groceries")]].map Json.obj))]
    [[("name", Json.str "milk")]] [[("Category", Json.str "Groceries")]]
    rfl rfl rfl rfl

/-- C7: an advice task with a missing `goal` or `monthly_stats` field is
rejected immediately: the outcome is the FAILED validation record, the only
observable event is the negative acknowledgement — no inference call, no
publish, no ack. -/
theorem advice_missing_fields_rejected (tfields : JObj) (adviceR : Except String Json)
    (h : jsonGet tfields "goal" = none ∨ jsonGet tfields "monthly_stats" = none) :
    advice_process_task (Except.ok (Json.obj tfields)) adviceR
      = (failResult ((jsonGet tfields "task_id").getD (Json.str "N/A"))
           "Отсутствует goal или monthly_stats", [Event.nack]) ∧
    statusOf (advice_process_task (Except.ok (Json.obj tfields)) adviceR).1
      = some (Json.str "FAILED") ∧
    (advice_process_task (Except.ok (Json.obj tfields)) adviceR).2.any isCallAdvice = false ∧
    (advice_process_task (Except.ok (Json.obj tfields)) adviceR).2.any isPublish = false ∧
    (advice_process_task (Except.ok (Json.obj tfields)) adviceR).2.any isNack = true := by
  have hcond : pyTruthy ((jsonGet tfields "goal").getD Json.null) = false
      ∨ pyTruthy ((jsonGet tfields "monthly_stats").getD Json.null) = false := by
    rcases h with h | h
    · left
      rw [h]
      rfl
    · right
      rw [h]
      rfl
  have hrun : advice_process_task (Except.ok (Json.obj tfields)) adviceR
      = (failResult ((jsonGet tfields "task_id").getD (Json.str "N/A"))
           "Отсутствует goal или monthly_stats", [Event.nack]) := by
    simp [advice_process_task, hcond]
  rw [hrun]
  exact ⟨rfl, rfl, rfl, rfl, rfl⟩

/-- C7 witness: a task carrying only `goal`. -/
theorem advice_missing_fields_rejected_witness :
    advice_process_task (Except.ok (Json.obj [("task_id", Json.str "A2"), ("goal", Json.str "g")]))
        (Except.ok Json.null)
      = (failResult (Json.str "A2") "Отсутствует goal или monthly_stats", [Event.nack]) ∧
    statusOf (advice_process_task (Except.ok (Json.obj
        [("task_id", Json.str "A2"), ("goal", Json.str "g")])) (Except.ok Json.null)).1
      = some (Json.str "FAILED") ∧
    (advice_process_task (Except.ok (Json.obj [("task_id", Json.str "A2"), ("goal", Json.str "g")]))
        (Except.ok Json.null)).2.any isCallAdvice = false ∧
    (advice_process_task (Except.ok (Json.obj [("task_id", Json.str "A2"), ("goal", Json.str "g")]))
        (Except.ok Json.null)).2.any isPublish = false ∧
    (advice_process_task (Except.ok (Json.obj [("task_id", Json.str "A2"), ("goal", Json.str "g")]))
        (Except.ok Json.null)).2.any isNack = true :=
  advice_missing_fields_rejected [("task_id", Json.str "A2"), ("goal", Json.str "g")]
    (Except.ok Json.null) (Or.inr rfl)

/-- C5 counterexample: an inbound task whose `categories` field is the empty
list — invalid per the spec's non-emptiness constraint — is NOT given the
default category set: the categorization call is made with the empty list. -/
theorem categories_empty_list_kept :
    usedCategories (ocr_process_task (Except.ok emptyCatsTask)
        (Except.ok (Json.obj [("items", Json.arr [])]))
        (Except.ok (Json.obj [("items", Json.arr [])]))).2 = some [] ∧
    ([] : List String) ≠ defaultCategories :=
  ⟨rfl, by decide⟩

/-- C5 amended: the worker substitutes the fixed default set exactly when
the `categories` field is absent or not a list of strings; any list of
strings — including the empty list — is used unchanged. The categorization
call of a run that reaches it is always made with `categoriesOf`'s choice. -/
theorem categories_selection (tfields : JObj) (o : Json) (categorizeR : Except String Json)
    (himg : pyTruthy ((jsonGet tfields "image_b64").getD Json.null) = true) :
    usedCategories (ocr_process_task (Except.ok (Json.obj tfields))
        (Except.ok o) categorizeR).2
      = some (categoriesOf (jsonGet tfields "categories")) ∧
    (jsonGet tfields "categories" = none →
        categoriesOf (jsonGet tfields "categories") = defaultCategories) ∧
    (∀ j, jsonGet tfields "categories" = some j → asStringList j = none →
        categoriesOf (jsonGet tfields "categories") = defaultCategories) ∧
    (∀ j cs, jsonGet tfields "categories" = some j → asStringList j = some cs →
        categoriesOf (jsonGet tfields "categories") = cs) := by
  refine ⟨?_, ?_, ?_, ?_⟩
  · rcases categorizeR with e | c
    · simp [ocr_process_task, himg, usedCategories]
    · rcases hm : merge_categoriesJ o c with me | fi
      · simp [ocr_process_task, himg, hm, usedCategories]
      · simp [ocr_process_task, himg, hm, usedCategories]
  · intro h
    simp [categoriesOf, h]
  · intro j h1 h2
    simp [categoriesOf, h1, h2]
  · intro j cs h1 h2
    simp [categoriesOf, h1, h2]

/-- C5 amended witness: the wrong-type scenario — `categories` is the
string `"not-a-list"`, so the default set is used. -/
theorem categories_selection_witness :
    usedCategories (ocr_process_task (Except.ok (Json.obj
        [("image_b64", Json.str "aW1n"), ("categories", Json.str "not-a-list")]))
        (Except.ok Json.null) (Except.ok Json.null)).2
      = some (categoriesOf (jsonGet
          [("image_b64", Json.str "aW1n"), ("categories", Json.str "not-a-list")] "categories")) ∧
    (jsonGet [("image_b64", Json.str "aW1n"), ("categories", Json.str "not-a-list")] "categories"
        = none →
      categoriesOf (jsonGet [("image_b64", Json.str "aW1n"),
        ("categories", Json.str "not-a-list")] "categories") = defaultCategories) ∧
    (∀ j, jsonGet [("image_b64", Json.str "aW1n"), ("categories", Json.str "not-a-list")] "categories"
          = some j → asStringList j = none →
        categoriesOf (jsonGet [("image_b64", Json.str "aW1n"),
          ("categories", Json.str "not-a-list")] "categories") = defaultCategories) ∧
    (∀ j cs, jsonGet [("image_b64", Json.str "aW1n"), ("categories", Json.str "not-a-list")] "categories"
          = some j → asStringList j = some cs →
        categoriesOf (jsonGet [("image_b64", Json.str "aW1n"),
          ("categories", Json.str "not-a-list")] "categories") = cs) :=
  categories_selection [("image_b64", Json.str "aW1n"), ("categories", Json.str "not-a-list")]
    Json.null (Except.ok Json.null) rfl

/-! ## The Category Schema Builder's path update -/

theorem getPath_setPath_self (path : List String) (j out : Json) (k : String) (v : Json)
    (h : setPath j path k v = some out) :
    getPath out (path ++ [k]) = some v := by
  induction path generalizing j out with
  | nil =>
      cases j
      case obj fields =>
        simp only [setPath, Option.some.injEq] at h
        subst h
        simp [getPath, jsonGet_pySetKey_self]
      all_goals simp [setPath] at h
  | cons p ps ih =>
      cases j
      case obj fields =>
        simp only [setPath] at h
        rcases hg : jsonGet fields p with _ | child
        · rw [hg] at h
          simp at h
        · rw [hg] at h
          dsimp only at h
          rcases hset : setPath child ps k v with _ | c
          · rw [hset] at h
            simp at h
          · rw [hset] at h
            simp only [Option.map_some', Option.some.injEq] at h
            subst h
            simp only [List.cons_append, getPath, jsonGet_pySetKey_self]
            exact ih child c hset
      all_goals simp [setPath] at h

theorem getPath_setPath_frame (path : List String) (j out : Json) (k : String) (v : Json)
    (h : setPath j path k v = some out) (q : List String)
    (h1 : pathLe q (path ++ [k]) = false) (h2 : pathLe (path ++ [k]) q = false) :
    getPath out q = getPath j q := by
  induction path generalizing j out q with
  | nil =>
      cases j
      case obj fields =>
        simp only [setPath, Option.some.injEq] at h
        subst h
        cases q with
        | nil => simp [pathLe] at h1
        | cons a qs =>
            have hak : ¬ a = k := by
              intro hh
              subst hh
              simp [pathLe] at h2
            simp [getPath, jsonGet_pySetKey_ne fields k a v hak]
      all_goals simp [setPath] at h
  | cons p ps ih =>
      cases j
      case obj fields =>
        simp only [setPath] at h
        rcases hg : jsonGet fields p with _ | child
        · rw [hg] at h
          simp at h
        · rw [hg] at h
          dsimp only at h
          rcases hset : setPath child ps k v with _ | c
          · rw [hset] at h
            simp at h
          · rw [hset] at h
            simp only [Option.map_some', Option.some.injEq] at h
            subst h
            cases q with
            | nil => simp [pathLe] at h1
            | cons a qs =>
                by_cases hap : a = p
                · subst hap
                  simp only [List.cons_append, pathLe, beq_self_eq_true,
                    Bool.true_and] at h1 h2
                  simp only [getPath, jsonGet_pySetKey_self, hg]
                  exact ih child c hset qs h1 h2
                · simp [getPath, jsonGet_pySetKey_ne fields p a c hap]
      all_goals simp [setPath] at h

/-- C6: on any template of the expected shape, the builder returns a schema
whose Category enum is exactly the supplied category list (in order, no
element duplicated or dropped beyond the list itself), and every part of the
template reachable by a subscript path diverging from the enum's path is
unchanged. -/
theorem load_schema_with_enum_spec (template : Json) (categories : List String) (out : Json)
    (h : load_schema_with_enum template categories = some out) :
    getPath out (enumPath ++ ["enum"]) = some (Json.arr (categories.map Json.str)) ∧
    ∀ q, pathLe q (enumPath ++ ["enum"]) = false →
      pathLe (enumPath ++ ["enum"]) q = false →
      getPath out q = getPath template q :=
  ⟨getPath_setPath_self enumPath template out "enum" (Json.arr (categories.map Json.str)) h,
   fun q h1 h2 => getPath_setPath_frame enumPath template out "enum"
     (Json.arr (categories.map Json.str)) h q h1 h2⟩

/-- C6 witness: the concrete sample template with categories `A, B`; the
`type` field away from the enum path is untouched. -/
theorem load_schema_with_enum_spec_witness :
    getPath ((load_schema_with_enum sampleTemplate ["A", "B"]).getD Json.null)
        (enumPath ++ ["enum"]) = some (Json.arr (["A", "B"].map Json.str)) ∧
    getPath ((load_schema_with_enum sampleTemplate ["A", "B"]).getD Json.null) ["type"]
      = getPath sampleTemplate ["type"] :=
  ⟨(load_schema_with_enum_spec sampleTemplate ["A", "B"] _ rfl).1,
   (load_schema_with_enum_spec sampleTemplate ["A", "B"] _ rfl).2 ["type"] rfl rfl⟩

/-- C8: the builder is deterministic — two runs on the same parsed template
content and the same category list produce the same schema value, hence
byte-identical serialized output. -/
theorem load_schema_with_enum_deterministic (t₁ t₂ : Json) (c₁ c₂ : List String)
    (ht : t₁ = t₂) (hc : c₁ = c₂) :
    (load_schema_with_enum t₁ c₁).map serializeJson
      = (load_schema_with_enum t₂ c₂).map serializeJson := by
  rw [ht, hc]

/-- C8 witness: two runs on the sample template. -/
theorem load_schema_with_enum_deterministic_witness :
    (load_schema_with_enum sampleTemplate ["A", "B"]).map serializeJson
      = (load_schema_with_enum sampleTemplate ["A", "B"]).map serializeJson :=
  load_schema_with_enum_deterministic sampleTemplate sampleTemplate
    ["A", "B"] ["A", "B"] rfl rfl

end SpendSphere
